import Mathlib

/-!
Verification development for the MCP websocket transport of the repository
(`custom_components/houzzkit_ai/houzzkit/mcp_transport.py`).

The transport is embedded shallowly: the mutable fields of `McpTransport`
become a record, and each coroutine becomes a pure function from the
sequence of environment observations it consumes (connection-attempt
outcomes, inbound frames, outbound messages, heartbeat loop observations)
to the sequence of externally visible effects it performs, together with
how it terminates.  Machine concurrency is reduced to these per-duty event
traces, plus the anyio task-group rule that a child task ending in an
exception cancels its siblings while a child returning normally does not.
-/

namespace McpTransport

/-- The mutable connection-supervision fields of `McpTransport`
(source lines 61-63): `endpoint`, `reconnect_times`, `should_reconnect`. -/
structure TransportState where
  endpoint : Option String
  reconnect_times : Nat
  should_reconnect : Bool
  deriving DecidableEq, Repr

/-- Python truthiness of the `endpoint` attribute: `not self.endpoint`
(source line 112) is true when the endpoint is `None` or the empty string. -/
def optFalsy : Option String → Bool
  | none => true
  | some s => s.isEmpty

/-- `set_endpoint` (source lines 78-82): net effect of
`should_reconnect = False; endpoint = e; reconnect_times = 0;
should_reconnect = True` — the intermediate `False` write is immediately
overwritten, so the resulting state has the flag re-armed. -/
def set_endpoint (s : TransportState) (e : String) : TransportState :=
  { s with should_reconnect := true, endpoint := some e, reconnect_times := 0 }

/-- The backoff computation of `run_connection_loop`
(source line 104): `seconds = max(min(60, self.reconnect_times * 5), 1)`. -/
def backoffSeconds (t : Nat) : Nat :=
  max (min 60 (t * 5)) 1

/-- Modelled from the spec: the `clamp(x, lo, hi)` function used by the
spec backoff formula `clamp(5*(k-1), 1, 60)`, to be compared with the
source `backoffSeconds`. -/
def clampSpec (x lo hi : Nat) : Nat :=
  max lo (min hi x)

/-- Environment outcome of one call to `connect_to_client` when an endpoint
is configured.  Exactly one of:
* `connectRaise` — some step before the websocket connect succeeds raises
  (server creation, stream creation, session creation, `ws_connect` failing
  with anything other than a handshake error): re-raised at source
  lines 169-171 and 134-136;
* `handshakeError status` — `ws_connect` raises `WSServerHandshakeError`
  with the given HTTP status, caught at source lines 164-168 and not
  re-raised;
* `wsSuccessThenEnd` — `ws_connect` succeeds (so source line 150 runs),
  the duty group runs, and the attempt later ends by an exception
  propagating out of the task group (the reader duty never returns
  normally, see `handle_websocket_messages`). -/
inductive EnvOutcome
  | connectRaise
  | handshakeError (status : Nat)
  | wsSuccessThenEnd
  deriving DecidableEq, Repr

/-- How one call to `connect_to_client` hands control back to
`run_connection_loop`: a normal return of a boolean, or an exception. -/
inductive AttemptResult
  | returned (b : Bool)
  | raised
  deriving DecidableEq, Repr

/-- One call to `connect_to_client` (source lines 110-138) together with
`_establish_websocket_connection` (source lines 140-171), as a function of
the pre-state and the environment outcome.
* No/empty endpoint: log and `return False` (lines 112-114).
* `connectRaise`: the exception is logged and re-raised (lines 134-136).
* `handshakeError 401`: `should_reconnect = False` (lines 166-167), then
  `connect_to_client` returns `self.should_reconnect` (line 138), i.e.
  `False`.
* `handshakeError status`, `status ≠ 401`: caught and logged only, so the
  call returns `self.should_reconnect` (line 138).
* `wsSuccessThenEnd`: `reconnect_times = 0` on connect success (line 150);
  the attempt then ends in an exception which lines 169-171 and 134-136
  re-raise. -/
def connectAttempt (s : TransportState) (o : EnvOutcome) :
    TransportState × AttemptResult :=
  if optFalsy s.endpoint then (s, .returned false)
  else
    match o with
    | .connectRaise => (s, .raised)
    | .handshakeError status =>
        if status = 401 then
          ({ s with should_reconnect := false }, .returned false)
        else (s, .returned s.should_reconnect)
    | .wsSuccessThenEnd => ({ s with reconnect_times := 0 }, .raised)

/-- Externally visible events of `run_connection_loop`: a call to
`connect_to_client` and a backoff sleep of the given number of seconds. -/
inductive Event
  | attempt
  | sleep (n : Nat)
  deriving DecidableEq, Repr

/-- `run_connection_loop` (source lines 94-108) driven by a finite list of
environment outcomes, one per `connect_to_client` call.  Returns the final
state, the event trace, and whether the coroutine returned (`true`) or the
outcome list was exhausted with the loop still willing to continue
(`false`).  Faithful structure per iteration:
`while self.should_reconnect:` guard; `if not await connect_to_client():
break`; a bare `except` swallowing any exception; then
`if self.should_reconnect:` compute `seconds`, increment
`reconnect_times`, and `if seconds > 0: await asyncio.sleep(seconds)`. -/
def runLoop : TransportState → List EnvOutcome →
    TransportState × List Event × Bool
  | s, [] => (s, [], !s.should_reconnect)
  | s, o :: rest =>
    if s.should_reconnect then
      let s1 := (connectAttempt s o).1
      match (connectAttempt s o).2 with
      | .returned false => (s1, [.attempt], true)
      | _ =>
        if s1.should_reconnect then
          let secs := backoffSeconds s1.reconnect_times
          let r := runLoop { s1 with reconnect_times := s1.reconnect_times + 1 } rest
          (r.1, .attempt :: ((if 0 < secs then [Event.sleep secs] else []) ++ r.2.1), r.2.2)
        else
          let r := runLoop s1 rest
          (r.1, .attempt :: r.2.1, r.2.2)
    else (s, [], true)

/-- The backoff sleeps of an event trace, in order. -/
def sleepsOf (evs : List Event) : List Nat :=
  evs.filterMap fun e =>
    match e with
    | .sleep n => some n
    | _ => none

/-- The number of `connect_to_client` calls in an event trace. -/
def countAttempts (evs : List Event) : Nat :=
  evs.countP fun e =>
    match e with
    | .attempt => true
    | _ => false

/-- Number of connection attempts that follow a `set_endpoint` call made
after `run_connection_loop` has processed the outcomes `pre`.  The loop
task is created exactly once, in `async_setup_entry` (source line 31), and
`set_endpoint` (source lines 78-82) only assigns attributes; hence if the
loop coroutine has already returned, nothing consumes further outcomes and
no further attempt can occur, while if the loop is still running it
continues from the updated state. -/
def attemptsAfterSetEndpoint (s : TransportState) (pre : List EnvOutcome)
    (e : String) (post : List EnvOutcome) : Nat :=
  let r := runLoop s pre
  if r.2.2 then 0
  else countAttempts (runLoop (set_endpoint r.1 e) post).2.1

/-- An environment outcome that is a connection/handshake failure other
than an authorization rejection (HTTP 401 handshake status). -/
def transientFailure : EnvOutcome → Bool
  | .connectRaise => true
  | .handshakeError status => status != 401
  | .wsSuccessThenEnd => false

/-- How a duty coroutine spawned in the task group of
`_establish_websocket_connection` (source lines 151-163) ends: a normal
return, or an exception — distinguishing the `StopAsyncIteration`
unconditionally raised by the reader `finally` block (source line 190)
from any other exception. -/
inductive DutyExit
  | normalReturn
  | raisedStopAsyncIteration
  | raisedOther
  deriving DecidableEq, Repr

/-- Task-group semantics (anyio): a child task that ends in an exception
cancels the sibling tasks and re-raises the exception out of the
`async with anyio.create_task_group()` block; a child that returns
normally does not cancel anything. -/
def dutyTriggersGroupCancel : DutyExit → Bool
  | .normalReturn => false
  | .raisedStopAsyncIteration => true
  | .raisedOther => true

/-- One inbound observation of the reader duty `async for` over the
websocket (source line 176): a TEXT frame (with whether it parses and
validates as a JSON-RPC message and the inbound channel send succeeds), a
CLOSE frame, an ERROR frame, a frame of any other type, or the iteration
itself raising. -/
inductive Frame
  | text (valid : Bool)
  | close
  | error
  | otherType
  | recvRaise
  deriving DecidableEq, Repr

/-- What the reader duty does with one frame: hand the decoded message to
the inbound channel, or drop the frame after a logged error. -/
inductive RdEvent
  | delivered
  | droppedInvalid
  deriving DecidableEq, Repr

/-- `_process_text_message` (source lines 211-221): parse, validate, wrap
and send the message, with every exception in that block caught and
logged (lines 220-221).  Returns the event produced and whether an
exception escapes the call — which is never, hence the constant `false`. -/
def process_text_message (valid : Bool) : RdEvent × Bool :=
  if valid then (.delivered, false) else (.droppedInvalid, false)

/-- `_handle_websocket_messages` (source lines 173-190), the reader duty,
as a function of the inbound frame list.  TEXT frames go through
`process_text_message` and iteration continues; CLOSE and ERROR frames
`break`; other frame types match no branch and iteration continues; an
exception from the iteration is logged and re-raised (lines 185-187).  On
every exit path the `finally` block (lines 188-190) raises
`StopAsyncIteration`, which replaces any in-flight exception. -/
def handle_websocket_messages : List Frame → List RdEvent × DutyExit
  | [] => ([], .raisedStopAsyncIteration)
  | f :: rest =>
    match f with
    | .text valid =>
        let r := handle_websocket_messages rest
        ((process_text_message valid).1 :: r.1, r.2)
    | .close => ([], .raisedStopAsyncIteration)
    | .error => ([], .raisedStopAsyncIteration)
    | .otherType => handle_websocket_messages rest
    | .recvRaise => ([], .raisedStopAsyncIteration)

/-- Externally visible actions of the writer duty: a successful
serialize-and-send of one outbound message, and closing the physical
websocket. -/
inductive WrEvent
  | sent
  | closeWs
  deriving DecidableEq, Repr

/-- `_handle_outgoing_messages` (source lines 192-209), the writer duty,
as a function of the outbound channel contents, each item tagged with
whether its `send_str` succeeds.  An empty list is the channel being
closed, ending the `async for`.  A failed send raises; the `except` at
lines 202-203 catches and logs it.  The `finally` block (lines 204-209)
always closes the websocket, itself guarded by a `try` so the duty always
returns normally. -/
def handle_outgoing_messages : List Bool → List WrEvent × DutyExit
  | [] => ([.closeWs], .normalReturn)
  | ok :: rest =>
    if ok then
      let r := handle_outgoing_messages rest
      (.sent :: r.1, r.2)
    else ([.closeWs], .normalReturn)

/-- One iteration observation of the heartbeat duty `while` loop
(source line 226): the value of the guard
`should_reconnect and current_ws and not current_ws.closed` at the top of
the iteration, and whether the `ping()` of that iteration succeeds. -/
structure HbObs where
  guard : Bool
  pingOk : Bool
  deriving DecidableEq, Repr

/-- Externally visible actions of the heartbeat duty: the 55-second timer
sleep and the protocol-level ping. -/
inductive HbEvent
  | sleep (n : Nat)
  | ping
  deriving DecidableEq, Repr

/-- `_heartbeat_task` (source lines 223-231): while the guard holds, sleep
55 seconds then ping; a failed ping raises, and the `except` at
lines 230-231 catches and logs it, after which the coroutine returns
normally — it neither re-raises nor cancels the task group. -/
def heartbeat_task : List HbObs → List HbEvent × DutyExit
  | [] => ([], .normalReturn)
  | obs :: rest =>
    if obs.guard then
      if obs.pingOk then
        let r := heartbeat_task rest
        (.sleep 55 :: .ping :: r.1, r.2)
      else ([.sleep 55, .ping], .normalReturn)
    else ([], .normalReturn)

/-- Where the `run_connection_loop` coroutine is suspended, as far as
`stop` is concerned: at the `while` guard, inside a connection attempt,
inside the backoff `asyncio.sleep` with some remaining time, or already
returned. -/
inductive LoopPC
  | atGuard
  | inAttempt
  | backoffSleeping (remaining : Nat)
  | exited
  deriving DecidableEq, Repr

/-- Process state seen by `stop`: the supervision flags, whether each of
the four memory-object stream endpoints is currently open (a stream that
was never created is modelled as not open), whether the current websocket
is open, and where the supervisor loop coroutine is suspended. -/
structure StopSysState where
  should_reconnect : Bool
  reconnect_times : Nat
  recvWriterOpen : Bool
  recvReaderOpen : Bool
  sendWriterOpen : Bool
  sendReaderOpen : Bool
  wsOpen : Bool
  loopPC : LoopPC
  deriving DecidableEq, Repr

/-- `stop` (source lines 233-241): set `should_reconnect = False`, zero
`reconnect_times`, `aclose()` each existing stream endpoint, and `close()`
the current websocket if any, then return.  The supervisor loop program
counter is untouched: `stop` never cancels or joins the loop task, and a
pending `asyncio.sleep` timer is not woken by closing streams or sockets,
so a loop suspended in its backoff sleep stays suspended there when `stop`
returns. -/
def stop (s : StopSysState) : StopSysState :=
  { s with should_reconnect := false, reconnect_times := 0,
           recvWriterOpen := false, recvReaderOpen := false,
           sendWriterOpen := false, sendReaderOpen := false,
           wsOpen := false }

/-- Modelled from the spec: the loop "has observed the stop signal" once
the coroutine has evaluated its `while` guard with the flag false and
returned, i.e. the loop has exited. -/
def hasObservedStopSignal (s : StopSysState) : Bool :=
  match s.loopPC with
  | .exited => true
  | _ => false

/-- The lifecycle states of a Home Assistant `ConfigEntry`
(`homeassistant.config_entries.ConfigEntryState`). -/
inductive ConfigEntryState
  | loaded
  | setupError
  | migrationError
  | setupRetry
  | notLoaded
  | failedUnload
  | setupInProgress
  deriving DecidableEq, Repr

/-- One integration instance as the reconciliation pass in
`async_setup_entry` (source lines 34-48) sees it: the desired endpoint
`ent.data.get("mcp_endpoint")`, the entry lifecycle state `ent.state`, and
the transport stored for that entry in `hass.data`, if any. -/
structure EntryInst where
  desired : Option String
  state : ConfigEntryState
  transport : Option TransportState
  deriving DecidableEq, Repr

/-- The lifecycle check of source line 41:
`ent.state in [ConfigEntryState.LOADED, ConfigEntryState.FAILED_UNLOAD]`. -/
def statePermitsUpdate : ConfigEntryState → Bool
  | .loaded => true
  | .failedUnload => true
  | _ => false

/-- The body of the reconciliation loop (source lines 34-48) for one
entry: skip when the desired endpoint is falsy or no transport is stored
(line 37), skip when the desired endpoint equals the transport current
endpoint (line 39), skip when the lifecycle state forbids the update
(line 41); otherwise call `set_endpoint` and write the (unchanged) desired
endpoint back into the entry data.  Returns the updated instance and
whether `set_endpoint` was called. -/
def reconcileOne (inst : EntryInst) : EntryInst × Bool :=
  match inst.desired, inst.transport with
  | some e, some t =>
      if e.isEmpty then (inst, false)
      else if some e = t.endpoint then (inst, false)
      else if statePermitsUpdate inst.state then
        ({ inst with transport := some (set_endpoint t e), desired := some e }, true)
      else (inst, false)
  | _, _ => (inst, false)

/-- The whole reconciliation pass over the loaded entries of the domain:
apply `reconcileOne` to each instance, collecting the updated instances
and the number of `set_endpoint` calls made. -/
def reconcilePass (l : List EntryInst) : List EntryInst × Nat :=
  match l with
  | [] => ([], 0)
  | inst :: rest =>
      let r1 := reconcileOne inst
      let r2 := reconcilePass rest
      (r1.1 :: r2.1, (if r1.2 then 1 else 0) + r2.2)

/-! Helper lemmas about the embedded definitions. -/

theorem backoffSeconds_pos (t : Nat) : 0 < backoffSeconds t :=
  Nat.lt_of_lt_of_le Nat.zero_lt_one (Nat.le_max_right _ _)

theorem backoffSeconds_eq_clamp (t : Nat) :
    backoffSeconds t = clampSpec (5 * t) 1 60 := by
  simp [backoffSeconds, clampSpec, Nat.max_comm, Nat.mul_comm]

theorem runLoop_connectRaise_cons (s : TransportState) (rest : List EnvOutcome)
    (hf : s.should_reconnect = true) (he : optFalsy s.endpoint = false) :
    runLoop s (.connectRaise :: rest)
      = ((runLoop { s with reconnect_times := s.reconnect_times + 1 } rest).1,
         .attempt :: Event.sleep (backoffSeconds s.reconnect_times)
           :: (runLoop { s with reconnect_times := s.reconnect_times + 1 } rest).2.1,
         (runLoop { s with reconnect_times := s.reconnect_times + 1 } rest).2.2) := by
  simp [runLoop, connectAttempt, hf, he, backoffSeconds_pos]

theorem runLoop_handshakeOther_cons (s : TransportState) (st : Nat)
    (rest : List EnvOutcome) (hf : s.should_reconnect = true)
    (he : optFalsy s.endpoint = false) (hst : st ≠ 401) :
    runLoop s (.handshakeError st :: rest)
      = ((runLoop { s with reconnect_times := s.reconnect_times + 1 } rest).1,
         .attempt :: Event.sleep (backoffSeconds s.reconnect_times)
           :: (runLoop { s with reconnect_times := s.reconnect_times + 1 } rest).2.1,
         (runLoop { s with reconnect_times := s.reconnect_times + 1 } rest).2.2) := by
  simp [runLoop, connectAttempt, hf, he, hst, backoffSeconds_pos]

theorem runLoop_handshake401_cons (s : TransportState) (rest : List EnvOutcome)
    (hf : s.should_reconnect = true) (he : optFalsy s.endpoint = false) :
    runLoop s (.handshakeError 401 :: rest)
      = ({ s with should_reconnect := false }, [.attempt], true) := by
  simp [runLoop, connectAttempt, hf, he]

theorem runLoop_wsSuccess_cons (s : TransportState) (rest : List EnvOutcome)
    (hf : s.should_reconnect = true) (he : optFalsy s.endpoint = false) :
    runLoop s (.wsSuccessThenEnd :: rest)
      = ((runLoop { s with reconnect_times := 1 } rest).1,
         .attempt :: Event.sleep 1
           :: (runLoop { s with reconnect_times := 1 } rest).2.1,
         (runLoop { s with reconnect_times := 1 } rest).2.2) := by
  simp [runLoop, connectAttempt, hf, he, backoffSeconds_pos, backoffSeconds]

theorem runLoop_trace_head (s : TransportState) (o : EnvOutcome)
    (rest : List EnvOutcome) (hf : s.should_reconnect = true) :
    (runLoop s (o :: rest)).2.1.head? = some .attempt := by
  rcases hc : (connectAttempt s o).2 with b | _
  · cases b with
    | false => simp [runLoop, hf, hc]
    | true =>
      by_cases h1 : (connectAttempt s o).1.should_reconnect = true
      · simp [runLoop, hf, hc, h1, backoffSeconds_pos]
      · simp [runLoop, hf, hc, h1]
  · by_cases h1 : (connectAttempt s o).1.should_reconnect = true
    · simp [runLoop, hf, hc, h1, backoffSeconds_pos]
    · simp [runLoop, hf, hc, h1]

theorem sleeps_replicate_connectRaise (n : Nat) :
    ∀ s : TransportState, s.should_reconnect = true → optFalsy s.endpoint = false →
      sleepsOf (runLoop s (List.replicate n .connectRaise)).2.1
        = (List.range n).map (fun i => backoffSeconds (s.reconnect_times + i)) := by
  induction n with
  | zero => intro s hf he; simp [runLoop, sleepsOf]
  | succ n ih =>
    intro s hf he
    rw [List.replicate_succ, runLoop_connectRaise_cons s _ hf he]
    have hrec := ih { s with reconnect_times := s.reconnect_times + 1 } hf he
    simp only [sleepsOf, List.filterMap_cons] at hrec ⊢
    rw [hrec, List.range_succ_eq_map, List.map_cons, List.map_map]
    have htail :
        List.map (fun i => backoffSeconds (s.reconnect_times + 1 + i)) (List.range n)
          = List.map ((fun i => backoffSeconds (s.reconnect_times + i)) ∘ Nat.succ)
              (List.range n) := by
      apply List.map_congr_left
      intro a ha
      show backoffSeconds (s.reconnect_times + 1 + a)
          = backoffSeconds (s.reconnect_times + (a + 1))
      congr 1
      omega
    rw [htail, Nat.add_zero]

theorem heartbeat_exit_normal (obss : List HbObs) :
    (heartbeat_task obss).2 = .normalReturn := by
  induction obss with
  | nil => rfl
  | cons obs rest ih =>
    rcases obs with ⟨g, p⟩
    cases g <;> cases p <;> simp [heartbeat_task, ih]

theorem reconcileOne_no_desired (st0 : ConfigEntryState)
    (tr : Option TransportState) :
    reconcileOne ⟨none, st0, tr⟩ = (⟨none, st0, tr⟩, false) := by
  cases tr <;> simp [reconcileOne]

theorem reconcileOne_no_transport (d : Option String) (st0 : ConfigEntryState) :
    reconcileOne ⟨d, st0, none⟩ = (⟨d, st0, none⟩, false) := by
  cases d <;> simp [reconcileOne]

theorem reconcileOne_eq_empty (e : String) (st0 : ConfigEntryState)
    (t : TransportState) (h1 : e.isEmpty = true) :
    reconcileOne ⟨some e, st0, some t⟩ = (⟨some e, st0, some t⟩, false) := by
  simp only [reconcileOne]
  rw [if_pos h1]

theorem reconcileOne_same_endpoint (d : Option String) (st0 : ConfigEntryState)
    (t : TransportState) (heq : d = t.endpoint) :
    reconcileOne ⟨d, st0, some t⟩ = (⟨d, st0, some t⟩, false) := by
  rcases d with _ | e
  · simp [reconcileOne]
  · by_cases hemp : e.isEmpty = true
    · simp [reconcileOne, hemp]
    · simp only [reconcileOne]
      rw [if_neg hemp, if_pos heq]

theorem reconcileOne_eq_skip_state (e : String) (st0 : ConfigEntryState)
    (t : TransportState) (h1 : ¬ e.isEmpty = true)
    (h2 : ¬ some e = t.endpoint) (h3 : ¬ statePermitsUpdate st0 = true) :
    reconcileOne ⟨some e, st0, some t⟩ = (⟨some e, st0, some t⟩, false) := by
  simp only [reconcileOne]
  rw [if_neg h1, if_neg h2, if_neg h3]

theorem reconcileOne_eq_call (e : String) (st0 : ConfigEntryState)
    (t : TransportState) (h1 : ¬ e.isEmpty = true)
    (h2 : ¬ some e = t.endpoint) (h3 : statePermitsUpdate st0 = true) :
    reconcileOne ⟨some e, st0, some t⟩
      = (⟨some e, st0, some (set_endpoint t e)⟩, true) := by
  simp only [reconcileOne]
  rw [if_neg h1, if_neg h2, if_pos h3]

theorem reconcileOne_called (inst : EntryInst)
    (h : (reconcileOne inst).2 = true) :
    (∃ e t, inst.desired = some e ∧ e.isEmpty = false ∧ inst.transport = some t
        ∧ some e ≠ t.endpoint)
    ∧ statePermitsUpdate inst.state = true := by
  obtain ⟨d, st0, tr⟩ := inst
  rcases d with _ | e
  · rw [reconcileOne_no_desired] at h
    simp at h
  · rcases tr with _ | t
    · rw [reconcileOne_no_transport] at h
      simp at h
    · by_cases h1 : e.isEmpty = true
      · rw [reconcileOne_eq_empty e st0 t h1] at h
        simp at h
      · by_cases h2 : some e = t.endpoint
        · rw [reconcileOne_same_endpoint (some e) st0 t h2] at h
          simp at h
        · by_cases h3 : statePermitsUpdate st0 = true
          · exact ⟨⟨e, t, rfl, by simpa using h1, rfl, h2⟩, h3⟩
          · rw [reconcileOne_eq_skip_state e st0 t h1 h2 h3] at h
            simp at h

theorem reconcileOne_idem (inst : EntryInst) :
    reconcileOne (reconcileOne inst).1 = ((reconcileOne inst).1, false) := by
  obtain ⟨d, st0, tr⟩ := inst
  rcases d with _ | e
  · rw [reconcileOne_no_desired]
    exact reconcileOne_no_desired st0 tr
  · rcases tr with _ | t
    · rw [reconcileOne_no_transport]
      exact reconcileOne_no_transport (some e) st0
    · by_cases h1 : e.isEmpty = true
      · rw [reconcileOne_eq_empty e st0 t h1]
        exact reconcileOne_eq_empty e st0 t h1
      · by_cases h2 : some e = t.endpoint
        · rw [reconcileOne_same_endpoint (some e) st0 t h2]
          exact reconcileOne_same_endpoint (some e) st0 t h2
        · by_cases h3 : statePermitsUpdate st0 = true
          · rw [reconcileOne_eq_call e st0 t h1 h2 h3]
            exact reconcileOne_same_endpoint (some e) st0 (set_endpoint t e) rfl
          · rw [reconcileOne_eq_skip_state e st0 t h1 h2 h3]
            exact reconcileOne_eq_skip_state e st0 t h1 h2 h3

theorem reconcilePass_idem (l : List EntryInst) :
    reconcilePass (reconcilePass l).1 = ((reconcilePass l).1, 0) := by
  induction l with
  | nil => rfl
  | cons inst rest ih => simp [reconcilePass, reconcileOne_idem, ih]

/-! The claims. -/

/-- C1: in a run of consecutive transient connection failures starting
from a freshly-reset attempt counter, the backoff delay slept before retry
attempt `k` equals `clamp(5*(k-1), 1, 60)` seconds, computed from the
attempt counter before it is incremented; the counter is reset to zero by
a successful websocket connect (source line 150), so the first backoff
after a successful connection sleeps the floor value of 1 second. -/
theorem C1_backoff_formula (e : String) (he : optFalsy (some e) = false)
    (n k : Nat) (h1 : 1 ≤ k) (hk : k ≤ n) :
    (sleepsOf (runLoop ⟨some e, 0, true⟩ (List.replicate n .connectRaise)).2.1)[k - 1]?
        = some (clampSpec (5 * (k - 1)) 1 60)
  ∧ (∀ s : TransportState, optFalsy s.endpoint = false →
        ((connectAttempt s .wsSuccessThenEnd).1).reconnect_times = 0)
  ∧ (∀ (s : TransportState) (rest : List EnvOutcome),
        s.should_reconnect = true → optFalsy s.endpoint = false →
        (sleepsOf (runLoop s (.wsSuccessThenEnd :: rest)).2.1).head? = some 1) := by
  refine ⟨?_, ?_, ?_⟩
  · rw [sleeps_replicate_connectRaise n ⟨some e, 0, true⟩ rfl he]
    have hlt : k - 1 < n := by omega
    rw [List.getElem?_map, List.getElem?_range hlt]
    simp [backoffSeconds_eq_clamp]
  · intro s hse
    simp [connectAttempt, hse]
  · intro s rest hf hse
    rw [runLoop_wsSuccess_cons s rest hf hse]
    simp [sleepsOf]

/-- Witness for C1: three consecutive transient failures from a fresh
counter; the backoff before retry attempt 2 is clamp(5, 1, 60) = 5. -/
theorem C1_backoff_formula_witness :
    (sleepsOf (runLoop ⟨some "ws:a", 0, true⟩
        (List.replicate 3 .connectRaise)).2.1)[2 - 1]?
      = some (clampSpec (5 * (2 - 1)) 1 60) :=
  (C1_backoff_formula "ws:a" rfl 3 2 (by omega) (by omega)).1

/-- C2 (counterexample): after the handshake is rejected with HTTP 401
the supervisor loop has exited, so a later `set_endpoint` is followed by
zero new connection attempts — not exactly one as the claim states, even
with further connectable outcomes available. -/
theorem C2_counterexample :
    attemptsAfterSetEndpoint ⟨some "ws:a", 0, true⟩ [.handshakeError 401] "ws:b"
        [.connectRaise, .connectRaise, .connectRaise] = 0
  ∧ attemptsAfterSetEndpoint ⟨some "ws:a", 0, true⟩ [.handshakeError 401] "ws:b"
        [.connectRaise, .connectRaise, .connectRaise] ≠ 1 := by
  exact ⟨rfl, by decide⟩

/-- C2 (amended): a 401 handshake rejection clears `should_reconnect` and
makes the loop exit after that single attempt, so no automatic reconnect
ever occurs; a later `set_endpoint` re-arms the flag, installs the new
endpoint and zeroes the counter, but the loop coroutine has already
returned, so zero new connection attempts follow. -/
theorem C2_amended_auth_stop (s : TransportState) (rest post : List EnvOutcome)
    (e : String) (hf : s.should_reconnect = true)
    (he : optFalsy s.endpoint = false) :
    runLoop s (.handshakeError 401 :: rest)
      = ({ s with should_reconnect := false }, [.attempt], true)
  ∧ set_endpoint { s with should_reconnect := false } e
      = { s with endpoint := some e, reconnect_times := 0, should_reconnect := true }
  ∧ attemptsAfterSetEndpoint s (.handshakeError 401 :: rest) e post = 0 := by
  refine ⟨runLoop_handshake401_cons s rest hf he, by simp [set_endpoint], ?_⟩
  simp [attemptsAfterSetEndpoint, runLoop_handshake401_cons s rest hf he]

/-- Witness for C2 (amended) at a concrete state and outcome lists. -/
theorem C2_amended_auth_stop_witness :
    runLoop ⟨some "ws:a", 4, true⟩ [.handshakeError 401, .connectRaise]
      = (⟨some "ws:a", 4, false⟩, [.attempt], true)
  ∧ set_endpoint ⟨some "ws:a", 4, false⟩ "ws:b" = ⟨some "ws:b", 0, true⟩
  ∧ attemptsAfterSetEndpoint ⟨some "ws:a", 4, true⟩
        [.handshakeError 401, .connectRaise] "ws:b" [.connectRaise] = 0 :=
  C2_amended_auth_stop ⟨some "ws:a", 4, true⟩ [.connectRaise] [.connectRaise]
    "ws:b" rfl rfl

/-- C3: a connection attempt failing for any reason other than a 401
handshake rejection leaves the loop running: the failure is absorbed at
the attempt boundary, the same iteration sleeps the backoff delay
computed from the pre-increment counter, and the next iteration calls
`connect_to_client` again. -/
theorem C3_transient_caught_backoff_retry (s : TransportState)
    (o o2 : EnvOutcome) (rest : List EnvOutcome)
    (hf : s.should_reconnect = true) (he : optFalsy s.endpoint = false)
    (ht : transientFailure o = true) :
    (runLoop s [o]).2.2 = false
  ∧ (runLoop s (o :: o2 :: rest)).2.1.take 3
      = [.attempt, .sleep (backoffSeconds s.reconnect_times), .attempt] := by
  have hcons : ∀ rest2 : List EnvOutcome,
      runLoop s (o :: rest2)
        = ((runLoop { s with reconnect_times := s.reconnect_times + 1 } rest2).1,
           .attempt :: Event.sleep (backoffSeconds s.reconnect_times)
             :: (runLoop { s with reconnect_times := s.reconnect_times + 1 } rest2).2.1,
           (runLoop { s with reconnect_times := s.reconnect_times + 1 } rest2).2.2) := by
    intro rest2
    cases o with
    | connectRaise => exact runLoop_connectRaise_cons s rest2 hf he
    | handshakeError st =>
        have hst : st ≠ 401 := by simpa [transientFailure] using ht
        exact runLoop_handshakeOther_cons s st rest2 hf he hst
    | wsSuccessThenEnd => simp [transientFailure] at ht
  constructor
  · rw [hcons []]
    simp [runLoop, hf]
  · rw [hcons (o2 :: rest)]
    have hhead := runLoop_trace_head
      { s with reconnect_times := s.reconnect_times + 1 } o2 rest hf
    rcases hl : (runLoop { s with reconnect_times := s.reconnect_times + 1 }
        (o2 :: rest)).2.1 with _ | ⟨a, tl⟩
    · rw [hl] at hhead
      simp at hhead
    · rw [hl] at hhead
      simp at hhead
      simp [hl, hhead]

/-- Witness for C3: a handshake failure with status 500 at counter 2 is
retried after a 10-second backoff. -/
theorem C3_transient_caught_backoff_retry_witness :
    (runLoop ⟨some "ws:a", 2, true⟩ [.handshakeError 500]).2.2 = false
  ∧ (runLoop ⟨some "ws:a", 2, true⟩
        [.handshakeError 500, .connectRaise]).2.1.take 3
      = [.attempt, .sleep (backoffSeconds 2), .attempt] :=
  C3_transient_caught_backoff_retry ⟨some "ws:a", 2, true⟩ (.handshakeError 500)
    .connectRaise [] rfl rfl rfl

/-- C4: with no endpoint configured, `connect_to_client` returns `False`
and the loop breaks at once: the state (in particular `reconnect_times`)
is unchanged and the trace contains the single attempt and no backoff
sleep. -/
theorem C4_no_endpoint_exits (s : TransportState) (o : EnvOutcome)
    (rest : List EnvOutcome) (hf : s.should_reconnect = true)
    (he : optFalsy s.endpoint = true) :
    connectAttempt s o = (s, .returned false)
  ∧ runLoop s (o :: rest) = (s, [.attempt], true) := by
  constructor
  · cases o <;> simp [connectAttempt, he]
  · cases o <;> simp [runLoop, connectAttempt, hf, he]

/-- Witness for C4 with an unset endpoint. -/
theorem C4_no_endpoint_exits_witness :
    connectAttempt ⟨none, 0, true⟩ .connectRaise
      = (⟨none, 0, true⟩, .returned false)
  ∧ runLoop ⟨none, 0, true⟩ [.connectRaise] = (⟨none, 0, true⟩, [.attempt], true) :=
  C4_no_endpoint_exits ⟨none, 0, true⟩ .connectRaise [] rfl rfl

/-- C5 (counterexample): `stop` returns with the supervisor loop still
suspended inside its backoff sleep, i.e. without the in-flight reconnect
logic having observed the stop signal: it never joins or cancels the loop
task, and closing streams or the socket does not wake an `asyncio.sleep`
timer. -/
theorem C5_counterexample :
    (stop ⟨true, 2, true, true, true, true, true, .backoffSleeping 5⟩).loopPC
        = .backoffSleeping 5
  ∧ hasObservedStopSignal
        (stop ⟨true, 2, true, true, true, true, true, .backoffSleeping 5⟩) = false := by
  decide

/-- C5 (amended): `stop` clears the should-continue flag, zeroes the
attempt counter, closes the four channel stream endpoints and the active
websocket, and then returns; it performs no wait for the supervisor loop
to observe the stop signal, leaving the loop program counter wherever it
was. -/
theorem C5_amended_stop_closes_without_drain (s : StopSysState) :
    (stop s).should_reconnect = false
  ∧ (stop s).reconnect_times = 0
  ∧ (stop s).recvWriterOpen = false
  ∧ (stop s).recvReaderOpen = false
  ∧ (stop s).sendWriterOpen = false
  ∧ (stop s).sendReaderOpen = false
  ∧ (stop s).wsOpen = false
  ∧ (stop s).loopPC = s.loopPC := by
  simp [stop]

/-- C6 (counterexample): a failed ping makes the heartbeat duty return
normally (the exception is caught and logged at source lines 230-231),
which does not cancel the task group — contradicting the claim that a
failed ping triggers cancellation of the whole group. -/
theorem C6_counterexample :
    heartbeat_task [⟨true, false⟩] = ([HbEvent.sleep 55, HbEvent.ping], .normalReturn)
  ∧ dutyTriggersGroupCancel (heartbeat_task [⟨true, false⟩]).2 = false := by
  decide

/-- C6 (amended): while the guard (should-reconnect and socket open)
holds, the heartbeat duty sleeps 55 seconds and then pings, every
iteration; when a ping fails the duty ends, but the exception is caught
and the coroutine returns normally on every input, so it never triggers
cancellation of the task group by itself. -/
theorem C6_amended_heartbeat (obss rest : List HbObs) :
    (heartbeat_task obss).2 = .normalReturn
  ∧ dutyTriggersGroupCancel (heartbeat_task obss).2 = false
  ∧ heartbeat_task (⟨true, true⟩ :: rest)
      = (HbEvent.sleep 55 :: HbEvent.ping :: (heartbeat_task rest).1,
         (heartbeat_task rest).2)
  ∧ heartbeat_task (⟨true, false⟩ :: rest)
      = ([HbEvent.sleep 55, HbEvent.ping], .normalReturn) := by
  refine ⟨heartbeat_exit_normal obss, ?_, ?_, ?_⟩
  · rw [heartbeat_exit_normal obss]
    rfl
  · simp [heartbeat_task]
  · simp [heartbeat_task]

/-- C7: an inbound text frame that fails to parse or validate is dropped
(the exception is swallowed inside `_process_text_message`), and the
reader duty goes on to process the subsequent frames exactly as it would
have without the bad frame: the connection is not torn down by that
failure alone. -/
theorem C7_invalid_frame_dropped (rest : List Frame) :
    process_text_message false = (.droppedInvalid, false)
  ∧ handle_websocket_messages (.text false :: rest)
      = (RdEvent.droppedInvalid :: (handle_websocket_messages rest).1,
         (handle_websocket_messages rest).2) :=
  ⟨rfl, by simp [handle_websocket_messages, process_text_message]⟩

/-- C8: the reconciliation pass calls `set_endpoint` only when the
desired endpoint is set, differs from the current one and the entry state
is LOADED or FAILED_UNLOAD; an instance whose endpoint is unchanged is
left completely untouched (no reconnect trigger), and a second pass over
the result of a first pass changes nothing and makes zero calls. -/
theorem C8_reconcile_guarded_idempotent :
    (∀ inst : EntryInst, (reconcileOne inst).2 = true →
        (∃ e t, inst.desired = some e ∧ e.isEmpty = false
            ∧ inst.transport = some t ∧ some e ≠ t.endpoint)
        ∧ statePermitsUpdate inst.state = true)
  ∧ (∀ (d : Option String) (st0 : ConfigEntryState) (t : TransportState),
        d = t.endpoint →
        reconcileOne ⟨d, st0, some t⟩ = (⟨d, st0, some t⟩, false))
  ∧ (∀ inst : EntryInst,
        reconcileOne (reconcileOne inst).1 = ((reconcileOne inst).1, false))
  ∧ (∀ l : List EntryInst,
        reconcilePass (reconcilePass l).1 = ((reconcilePass l).1, 0)) :=
  ⟨reconcileOne_called, reconcileOne_same_endpoint, reconcileOne_idem,
   reconcilePass_idem⟩

/-- Witness for C8: an instance whose desired endpoint equals the
transport endpoint is not touched by the pass. -/
theorem C8_reconcile_guarded_idempotent_witness :
    reconcileOne ⟨some "ws:a", .loaded, some ⟨some "ws:a", 3, true⟩⟩
      = (⟨some "ws:a", .loaded, some ⟨some "ws:a", 3, true⟩⟩, false) :=
  C8_reconcile_guarded_idempotent.2.1 (some "ws:a") .loaded
    ⟨some "ws:a", 3, true⟩ rfl

/-- C9: on every exit path of the writer duty — outbound channel closed
or a send error — the last thing the duty does is close the physical
websocket, and it then returns normally; and once the socket is closed the
reader duty, whose frame stream has then ended, stops blocking and exits,
so teardown converges without deadlock. -/
theorem C9_writer_closes_ws_reader_unblocks :
    (∀ sends : List Bool,
        ∃ pre, (handle_outgoing_messages sends).1 = pre ++ [WrEvent.closeWs])
  ∧ (∀ sends : List Bool, (handle_outgoing_messages sends).2 = .normalReturn)
  ∧ (handle_websocket_messages []).2 = .raisedStopAsyncIteration := by
  refine ⟨?_, ?_, rfl⟩
  · intro sends
    induction sends with
    | nil => exact ⟨[], rfl⟩
    | cons ok rest ih =>
      cases ok with
      | false => exact ⟨[], rfl⟩
      | true =>
        obtain ⟨pre, hp⟩ := ih
        exact ⟨WrEvent.sent :: pre, by simp [handle_outgoing_messages, hp]⟩
  · intro sends
    induction sends with
    | nil => rfl
    | cons ok rest ih => cases ok <;> simp [handle_outgoing_messages, ih]

/-- C10: the reader duty never completes normally — whatever the inbound
frames are (clean remote close, error frame, iteration error, or stream
end), it exits by raising `StopAsyncIteration` from its `finally` block;
such an exceptional exit cancels the task group, and the resulting
exception reaches `run_connection_loop` as a caught exception: the loop
does not break, it resets-then-increments the counter, sleeps the floor
backoff, and continues. -/
theorem C10_reader_always_raises :
    (∀ frames : List Frame,
        (handle_websocket_messages frames).2 = .raisedStopAsyncIteration)
  ∧ dutyTriggersGroupCancel .raisedStopAsyncIteration = true
  ∧ (∀ s : TransportState, s.should_reconnect = true →
        optFalsy s.endpoint = false →
        (connectAttempt s .wsSuccessThenEnd).2 = .raised
        ∧ runLoop s [.wsSuccessThenEnd]
            = ({ s with reconnect_times := 1 }, [.attempt, Event.sleep 1], false)) := by
  refine ⟨?_, rfl, ?_⟩
  · intro frames
    induction frames with
    | nil => rfl
    | cons f rest ih => cases f <;> simp [handle_websocket_messages, ih]
  · intro s hf hse
    refine ⟨by simp [connectAttempt, hse], ?_⟩
    rw [runLoop_wsSuccess_cons s [] hf hse]
    simp [runLoop, hf]

/-- Witness for C10: a session that ends after a clean remote close. -/
theorem C10_reader_always_raises_witness :
    (connectAttempt ⟨some "ws:a", 7, true⟩ .wsSuccessThenEnd).2 = .raised
  ∧ runLoop ⟨some "ws:a", 7, true⟩ [.wsSuccessThenEnd]
      = (⟨some "ws:a", 1, true⟩, [.attempt, Event.sleep 1], false) :=
  C10_reader_always_raises.2.2 ⟨some "ws:a", 7, true⟩ rfl rfl

end McpTransport
